import Mathlib

/-!
Shallow embedding of `src/mitchell_schaeffer/ops.py`, the mathematical core
of the Mitchell-Schaeffer two-variable cardiac cell model, together with
proofs of its specified properties.

Real-number arithmetic of the source is modelled over `ℚ` (exact rational
arithmetic); Python dicts are modelled as ordered association lists, and the
per-call allocation of fresh dict literals is modelled by an explicit heap.
-/

namespace MitchellSchaeffer

/-- Embeds `get_variables`: default initial values of the state variables,
returned as the ordered mapping `{u: 0.0, h: 1.0}`. -/
def get_variables : List (String × ℚ) :=
  [("u", 0), ("h", 1)]

/-- Embeds `get_parameters`: default parameter values of the model, returned
as the ordered mapping
`{tau_close: 150.0, tau_open: 120.0, tau_out: 6.0, tau_in: 0.3, u_gate: 0.13}`. -/
def get_parameters : List (String × ℚ) :=
  [("tau_close", 150), ("tau_open", 120), ("tau_out", 6), ("tau_in", 3/10),
   ("u_gate", 13/100)]

/-- Embeds `calc_rhs`: the right-hand side of the membrane-potential
equation, `J_in + J_out`. -/
def calc_rhs (J_in J_out : ℚ) : ℚ :=
  J_in + J_out

/-- Embeds `calc_dh`: the time-derivative of the gating variable `h`,
`(1.0 - h) / tau_open if u < u_gate else -h / tau_close`. -/
def calc_dh (h u tau_close tau_open u_gate : ℚ) : ℚ :=
  if u < u_gate then (1 - h) / tau_open else -h / tau_close

/-- Embeds `calc_J_in`: the inward (depolarizing) current,
`C = (u**2)*(1-u)` then `h*C/tau_in`. -/
def calc_J_in (u h tau_in : ℚ) : ℚ :=
  let C := (u ^ 2) * (1 - u)
  h * C / tau_in

/-- Embeds `calc_J_out`: the outward (repolarizing) current, `-u/tau_out`. -/
def calc_J_out (u tau_out : ℚ) : ℚ :=
  -u / tau_out

/-! ### Heap model for per-call dict allocation

Each call of `get_variables` / `get_parameters` in the source evaluates a
dict literal, which allocates a fresh mapping. We model the Python object
heap as an allocation counter plus a store from addresses to mappings. -/

/-- A heap of allocated mappings: `next` is the next fresh address, `mem`
gives the contents stored at each address. -/
structure Heap where
  next : Nat
  mem : Nat → List (String × ℚ)

/-- Allocate a fresh mapping with contents `d` on the heap, returning its
address and the updated heap. -/
def allocDict (d : List (String × ℚ)) (hp : Heap) : Nat × Heap :=
  (hp.next, ⟨hp.next + 1, fun a => if a = hp.next then d else hp.mem a⟩)

/-- A call of `get_variables`: evaluates the dict literal, allocating it. -/
def get_variables_call (hp : Heap) : Nat × Heap :=
  allocDict get_variables hp

/-- A call of `get_parameters`: evaluates the dict literal, allocating it. -/
def get_parameters_call (hp : Heap) : Nat × Heap :=
  allocDict get_parameters hp

/-- In-place mutation of the mapping stored at address `a`. -/
def heapWrite (hp : Heap) (a : Nat) (d : List (String × ℚ)) : Heap :=
  ⟨hp.next, fun b => if b = a then d else hp.mem b⟩

/-- Read the mapping stored at address `a`. -/
def heapRead (hp : Heap) (a : Nat) : List (String × ℚ) :=
  hp.mem a

/-! ### State-passing model of the operations

The source functions are plain expressions over their arguments; run in an
arbitrary ambient program state `σ`, each computes its result and leaves the
state untouched. -/

/-- `get_variables` run in an ambient state. -/
def get_variablesSt {σ : Type} (s : σ) : List (String × ℚ) × σ :=
  (get_variables, s)

/-- `get_parameters` run in an ambient state. -/
def get_parametersSt {σ : Type} (s : σ) : List (String × ℚ) × σ :=
  (get_parameters, s)

/-- `calc_rhs` run in an ambient state. -/
def calc_rhsSt {σ : Type} (J_in J_out : ℚ) (s : σ) : ℚ × σ :=
  (calc_rhs J_in J_out, s)

/-- `calc_dh` run in an ambient state. -/
def calc_dhSt {σ : Type} (h u tau_close tau_open u_gate : ℚ) (s : σ) : ℚ × σ :=
  (calc_dh h u tau_close tau_open u_gate, s)

/-- `calc_J_in` run in an ambient state. -/
def calc_J_inSt {σ : Type} (u h tau_in : ℚ) (s : σ) : ℚ × σ :=
  (calc_J_in u h tau_in, s)

/-- `calc_J_out` run in an ambient state. -/
def calc_J_outSt {σ : Type} (u tau_out : ℚ) (s : σ) : ℚ × σ :=
  (calc_J_out u tau_out, s)

/-! ### Theorems -/

/-- Claim C1: `calc_dh` returns `(1 - h) / tau_open` when `u < u_gate` and
`-h / tau_close` when `u >= u_gate`; the boundary case `u == u_gate`
resolves to the decay branch `-h / tau_close`. -/
theorem calc_dh_branch_spec (h u tau_close tau_open u_gate : ℚ) :
    (u < u_gate → calc_dh h u tau_close tau_open u_gate = (1 - h) / tau_open) ∧
    (u_gate ≤ u → calc_dh h u tau_close tau_open u_gate = -h / tau_close) ∧
    calc_dh h u_gate tau_close tau_open u_gate = -h / tau_close := by
  unfold calc_dh
  exact ⟨fun hlt => if_pos hlt, fun hge => if_neg (not_lt.mpr hge),
    if_neg (lt_irrefl u_gate)⟩

/-- Witness for C1 at concrete inputs: the recovery branch at
`u = 0 < u_gate = 13/100` and the decay branch at `u = 1/5 ≥ 13/100`. -/
theorem calc_dh_branch_spec_witness :
    calc_dh 1 0 150 120 (13/100) = (1 - 1) / 120 ∧
    calc_dh (1/2) (1/5) 150 120 (13/100) = -(1/2) / 150 :=
  ⟨(calc_dh_branch_spec 1 0 150 120 (13/100)).1 (by norm_num),
   (calc_dh_branch_spec (1/2) (1/5) 150 120 (13/100)).2.1 (by norm_num)⟩

/-- Claim C2: `calc_J_in u h tau_in` equals the direct formula
`h * u^2 * (1 - u) / tau_in`. -/
theorem calc_J_in_formula (u h tau_in : ℚ) :
    calc_J_in u h tau_in = h * u ^ 2 * (1 - u) / tau_in := by
  unfold calc_J_in
  ring

/-- Claim C3: `calc_J_out u tau_out` equals `-u / tau_out`. -/
theorem calc_J_out_formula (u tau_out : ℚ) :
    calc_J_out u tau_out = -u / tau_out :=
  rfl

/-- Claim C4: `calc_rhs` returns `J_in + J_out` and is commutative in its
two arguments. -/
theorem calc_rhs_sum_comm (J_in J_out : ℚ) :
    calc_rhs J_in J_out = J_in + J_out ∧
    calc_rhs J_in J_out = calc_rhs J_out J_in := by
  unfold calc_rhs
  exact ⟨rfl, add_comm _ _⟩

/-- Claim C6: the default resting state `u = 0, h = 1` with the default
parameters is a fixed point: both currents, the right-hand side, and the
gating derivative all evaluate to `0` (the recovery branch is taken since
`0 < 13/100`). -/
theorem default_state_fixed_point :
    calc_J_in 0 1 (3/10) = 0 ∧ calc_J_out 0 6 = 0 ∧ calc_rhs 0 0 = 0 ∧
    calc_dh 1 0 150 120 (13/100) = 0 := by
  refine ⟨?_, ?_, ?_, ?_⟩ <;> norm_num [calc_J_in, calc_J_out, calc_rhs, calc_dh]

/-- Claim C7: `get_variables` is exactly `{u: 0, h: 1}` and `get_parameters`
is exactly the five-key default mapping; moreover each call allocates a
fresh mapping — two successive calls return distinct addresses, and mutating
the mapping from one call leaves the mapping from the other call unchanged. -/
theorem default_accessors_exact_and_fresh (hp : Heap) (d e : List (String × ℚ)) :
    get_variables = [("u", (0 : ℚ)), ("h", 1)] ∧
    get_parameters = [("tau_close", (150 : ℚ)), ("tau_open", 120), ("tau_out", 6),
      ("tau_in", 3/10), ("u_gate", 13/100)] ∧
    (get_variables_call hp).1 ≠ (get_variables_call (get_variables_call hp).2).1 ∧
    heapRead (heapWrite (get_variables_call (get_variables_call hp).2).2
        (get_variables_call hp).1 d)
      (get_variables_call (get_variables_call hp).2).1 = get_variables ∧
    (get_parameters_call hp).1 ≠ (get_parameters_call (get_parameters_call hp).2).1 ∧
    heapRead (heapWrite (get_parameters_call (get_parameters_call hp).2).2
        (get_parameters_call hp).1 e)
      (get_parameters_call (get_parameters_call hp).2).1 = get_parameters := by
  refine ⟨rfl, rfl, ?_, ?_, ?_, ?_⟩ <;>
    simp [get_variables_call, get_parameters_call, allocDict, heapWrite, heapRead,
      Nat.succ_ne_self]

/-- Claim C8: every operation is deterministic and referentially
transparent — run in any ambient state, it leaves the state unchanged, and
its result does not depend on the state it is run in. -/
theorem ops_pure_stateless {σ : Type} (s s' : σ)
    (J_in J_out h u tau_close tau_open u_gate tau_in tau_out : ℚ) :
    ((get_variablesSt s).2 = s ∧ (get_variablesSt s).1 = (get_variablesSt s').1) ∧
    ((get_parametersSt s).2 = s ∧ (get_parametersSt s).1 = (get_parametersSt s').1) ∧
    ((calc_rhsSt J_in J_out s).2 = s ∧
      (calc_rhsSt J_in J_out s).1 = (calc_rhsSt J_in J_out s').1) ∧
    ((calc_dhSt h u tau_close tau_open u_gate s).2 = s ∧
      (calc_dhSt h u tau_close tau_open u_gate s).1 =
        (calc_dhSt h u tau_close tau_open u_gate s').1) ∧
    ((calc_J_inSt u h tau_in s).2 = s ∧
      (calc_J_inSt u h tau_in s).1 = (calc_J_inSt u h tau_in s').1) ∧
    ((calc_J_outSt u tau_out s).2 = s ∧
      (calc_J_outSt u tau_out s).1 = (calc_J_outSt u tau_out s').1) :=
  ⟨⟨rfl, rfl⟩, ⟨rfl, rfl⟩, ⟨rfl, rfl⟩, ⟨rfl, rfl⟩, ⟨rfl, rfl⟩, ⟨rfl, rfl⟩⟩

/-- Claim C9: for `tau_in ≠ 0`, the inward current vanishes exactly at the
formula's roots: at `u = 0`, at `u = 1`, and when the gate is fully closed
(`h = 0`). -/
theorem calc_J_in_roots (h u tau_in : ℚ) (hti : tau_in ≠ 0) :
    calc_J_in 0 h tau_in = 0 ∧ calc_J_in 1 h tau_in = 0 ∧
    calc_J_in u 0 tau_in = 0 := by
  unfold calc_J_in
  norm_num

/-- Witness for C9 at concrete inputs `h = 1/2, u = 1/3, tau_in = 3/10`. -/
theorem calc_J_in_roots_witness :
    calc_J_in 0 (1/2) (3/10) = 0 ∧ calc_J_in 1 (1/2) (3/10) = 0 ∧
    calc_J_in (1/3) 0 (3/10) = 0 :=
  calc_J_in_roots (1/2) (1/3) (3/10) (by norm_num)

/-- Claim C10: with `0 ≤ h ≤ 1` and positive time constants, `calc_dh`
points into the unit interval: it is nonnegative on the recovery branch
(zero exactly at `h = 1`) and nonpositive on the decay branch (zero exactly
at `h = 0`). -/
theorem calc_dh_keeps_unit_interval (h u tau_close tau_open u_gate : ℚ)
    (h0 : 0 ≤ h) (h1 : h ≤ 1) (hto : 0 < tau_open) (htc : 0 < tau_close) :
    (u < u_gate → 0 ≤ calc_dh h u tau_close tau_open u_gate ∧
      (calc_dh h u tau_close tau_open u_gate = 0 ↔ h = 1)) ∧
    (u_gate ≤ u → calc_dh h u tau_close tau_open u_gate ≤ 0 ∧
      (calc_dh h u tau_close tau_open u_gate = 0 ↔ h = 0)) := by
  constructor
  · intro hlt
    rw [calc_dh, if_pos hlt]
    constructor
    · exact div_nonneg (by linarith) hto.le
    · rw [div_eq_zero_iff]
      constructor
      · rintro (hz | hz)
        · linarith
        · exact absurd hz hto.ne'
      · intro hh
        left
        rw [hh]
        ring
  · intro hge
    rw [calc_dh, if_neg (not_lt.mpr hge)]
    constructor
    · rw [neg_div]
      exact neg_nonpos.mpr (div_nonneg h0 htc.le)
    · rw [div_eq_zero_iff, neg_eq_zero]
      constructor
      · rintro (hz | hz)
        · exact hz
        · exact absurd hz htc.ne'
      · intro hh
        exact Or.inl hh

/-- Witness for C10 at concrete inputs: the recovery branch with
`h = 1/2, u = 0, u_gate = 13/100` and default time constants. -/
theorem calc_dh_keeps_unit_interval_witness :
    0 ≤ calc_dh (1/2) 0 150 120 (13/100) ∧
    (calc_dh (1/2) 0 150 120 (13/100) = 0 ↔ (1/2 : ℚ) = 1) :=
  (calc_dh_keeps_unit_interval (1/2) 0 150 120 (13/100) (by norm_num) (by norm_num)
    (by norm_num) (by norm_num)).1 (by norm_num)

end MitchellSchaeffer
